import Mathlib

/-!
Formal model of the GitHub webhook service in `src/main.py`.

The Python module is embedded as pure Lean functions.  External collaborators
(the `claude` CLI, the `gh` CLI, `git clone`, the HMAC primitive from the
standard library) are represented by explicit oracle inputs or function
parameters; everything the module itself computes is translated directly.
-/

deriving instance DecidableEq for Except

namespace Main

/-! ## String helpers -/

/-- Python `str.endswith`: the character sequence of `post` is a suffix of the
character sequence of `s`. -/
def strEndsWith (s post : String) : Bool :=
  List.isSuffixOf post.data s.data

/-- Python `str.strip()`: remove leading and trailing whitespace. -/
def pyStrip (s : String) : String :=
  String.mk (((s.data.dropWhile Char.isWhitespace).reverse.dropWhile
    Char.isWhitespace).reverse)

/-- Python `int(s)` on a string: optional surrounding whitespace, an optional
sign, then at least one decimal digit; anything else raises `ValueError`,
modelled as `none`. -/
def pyInt? (s : String) : Option Int :=
  match (s.data.dropWhile Char.isWhitespace).reverse.dropWhile Char.isWhitespace
      |>.reverse with
  | [] => none
  | c :: rest =>
    let signed : Bool × List Char :=
      if c = '-' then (true, rest)
      else if c = '+' then (false, rest)
      else (false, c :: rest)
    if signed.2 ≠ [] ∧ signed.2.all Char.isDigit then
      let n : Nat := signed.2.foldl (fun acc d => acc * 10 + (d.toNat - 48)) 0
      some (if signed.1 then -(n : Int) else (n : Int))
    else none

/-- Lowercase hexadecimal digit for a nibble, as produced by `hexdigest()`. -/
def hexDigit (n : Nat) : Char :=
  if n < 10 then Char.ofNat (48 + n) else Char.ofNat (87 + n)

/-- Lowercase hexadecimal encoding of a byte sequence
(`hashlib`'s `hexdigest()`). -/
def hexEncode (bytes : List Nat) : String :=
  String.mk (bytes.flatMap (fun b => [hexDigit (b / 16 % 16), hexDigit (b % 16)]))

/-- Model of `hmac.compare_digest`: a length gate followed by an accumulated
bitwise-or of the xors of all aligned positions, with no early exit (the
accumulation inspects every position regardless of where a mismatch occurs). -/
def compare_digest (a b : String) : Bool :=
  a.data.length == b.data.length &&
    ((List.zipWith (fun x y => Nat.xor x.toNat y.toNat) a.data b.data).foldl
      Nat.lor 0 == 0)

/-! ## Constants and the analysis invoker (src/main.py lines 35-70) -/

/-- The fixed signature marker appended to every generated reply
(src/main.py line 35). -/
def claude_reply_signature : String :=
  "\n\n---\n*🔧 此回覆由 [Claude Code](https://claude.ai/code) 自動分析生成*"

/-- Fallback reply for a backend non-zero exit (src/main.py line 64). -/
def fallback_api_error : String :=
  "🤖 分析系統暫時無法使用。我會稍後查看這個 issue。" ++ claude_reply_signature

/-- Fallback reply for a backend timeout (src/main.py line 67). -/
def fallback_timeout : String :=
  "🤖 分析處理時間過長，我會稍後查看這個 issue。" ++ claude_reply_signature

/-- Fallback reply for any other exception (src/main.py line 70). -/
def fallback_unexpected : String :=
  "🤖 系統發生未預期的錯誤，我會稍後查看這個 issue。" ++ claude_reply_signature

/-- Outcome of one invocation of the external `claude` CLI, the collaborator
behind `subprocess.run` in `analyze_issue_with_claude`. -/
inductive BackendOutcome where
  | success (stdout : String)
  | calledProcessError (stderr : String)
  | timeoutExpired
  | unexpectedError
  deriving DecidableEq

/-- Model of `analyze_issue_with_claude` (src/main.py lines 37-70).  The
`CLAUDE_TIMEOUT` environment variable is read inside the `try` block at
invocation time; a missing or non-numeric value raises `TypeError` or
`ValueError` before the backend call, which the final generic handler turns
into the unexpected-error fallback reply. -/
def analyze_issue_with_claude (claudeTimeoutEnv : Option String)
    (backend : BackendOutcome) : String :=
  match claudeTimeoutEnv.bind pyInt? with
  | none => fallback_unexpected
  | some _ =>
    match backend with
    | .success out => pyStrip out ++ claude_reply_signature
    | .calledProcessError _ => fallback_api_error
    | .timeoutExpired => fallback_timeout
    | .unexpectedError => fallback_unexpected

example : analyze_issue_with_claude none (.success "hi") = fallback_unexpected := by decide
example : analyze_issue_with_claude (some "60") (.success " hi ") =
    "hi" ++ claude_reply_signature := by decide
example : strEndsWith fallback_timeout claude_reply_signature = true := by decide

/-! ## Data model of the webhook request -/

/-- One element of the fetched issue's `comments` array; `body` is `none` when
the JSON object lacks a `body` key (the code reads it with `.get("body", "")`). -/
structure CommentObj where
  body : Option String
  deriving DecidableEq

/-- The JSON document returned by `gh issue view --json ...`, restricted to the
fields the module actually inspects. -/
structure IssueInfo where
  title : Option String
  comments : List CommentObj
  deriving DecidableEq

/-- Outcome of the `gh issue view` subprocess plus the `json.loads` of its
output (src/main.py lines 93-111 and 133-156): success with parsed data, a
non-zero exit, or any other exception (including a JSON parse failure). -/
inductive FetchOutcome where
  | ok (info : IssueInfo)
  | calledProcessError (stderr : String)
  | unexpectedError
  deriving DecidableEq

/-- The parsed webhook payload, restricted to the keys the module reads.  Every
field read with `.get` is an `Option`, mirroring Python's `None` default. -/
structure Payload where
  action : Option String
  labelName : Option String
  repoFullName : Option String
  repoSshUrl : Option String
  issueNumber : Option Int
  issueLabelNames : List (Option String)
  deriving DecidableEq

/-- The two request headers the endpoint reads. -/
structure Headers where
  xHubSignature256 : Option String
  xGitHubEvent : Option String
  deriving DecidableEq

/-- Environment configuration read by the endpoint and the analysis invoker. -/
structure Env where
  githubWebhookSecret : Option String
  claudeTimeoutEnv : Option String
  deriving DecidableEq

/-- All per-request inputs: the HTTP request data plus the behaviour of the
external collaborators consulted during this request (JSON parser, git clone,
issue fetch, analysis backend, comment posting). -/
structure RequestInput where
  headers : Headers
  bodyBytes : List Nat
  payloadParse : Option Payload
  cloneOk : Bool
  fetch : FetchOutcome
  backend : BackendOutcome
  postOk : Bool
  deriving DecidableEq

/-- A side-effecting pipeline step executed against an external collaborator. -/
inductive Step where
  | clone (sshUrl : String)
  | fetch (cwd : String)
  | dupCheck
  | analyze
  | publish (text : String)
  deriving DecidableEq

/-- The kind of a step, forgetting its data. -/
inductive StepKind where
  | clone
  | fetch
  | dupCheck
  | analyze
  | publish
  deriving DecidableEq

/-- Forget a step's data. -/
def Step.kind : Step → StepKind
  | .clone _ => .clone
  | .fetch _ => .fetch
  | .dupCheck => .dupCheck
  | .analyze => .analyze
  | .publish _ => .publish

/-- A Python exception escaping the inner code of the endpoint. -/
inductive Exc where
  | http (status : Nat) (detail : String)
  | jsonError
  | typeError
  | attributeError
  deriving DecidableEq

/-- The HTTP response the caller observes. -/
inductive Resp where
  | ok (message : String)
  | serverError
  deriving DecidableEq

/-- HTTP status code of a response: every `JSONResponse` the module builds uses
status 200, and every escaped exception is re-raised as a 500 `HTTPException`. -/
def Resp.status : Resp → Nat
  | .ok _ => 200
  | .serverError => 500

/-! ## Handlers (src/main.py lines 83-165) -/

/-- Python `str(x)` of an optional string, as interpolated into an f-string. -/
def pyStr : Option String → String
  | none => "None"
  | some s => s

/-- Model of `handle_issues_labeled` (src/main.py lines 83-120), given the
working directory, the parsed payload and the collaborator outcomes.  Returns
the handler's result (JSON message or raised exception) and the trace of
side-effecting steps it performed. -/
def handle_issues_labeled (repoPath : String) (payload : Payload)
    (fetch : FetchOutcome) (claudeTimeoutEnv : Option String)
    (backend : BackendOutcome) (postOk : Bool) :
    Except Exc String × List Step :=
  if payload.labelName ≠ some "claude-discuss" then
    (.ok ("Label ignored: " ++ pyStr payload.labelName), [])
  else
    match fetch with
    | .calledProcessError _ =>
      (.error (.http 500 "Failed to fetch issue details"), [.fetch repoPath])
    | .unexpectedError =>
      (.error (.http 500 "Failed to fetch issue details"), [.fetch repoPath])
    | .ok _ =>
      let text := analyze_issue_with_claude claudeTimeoutEnv backend
      if postOk then
        (.ok "Comment posted successfully", [.fetch repoPath, .analyze, .publish text])
      else
        (.error (.http 500 "Failed to post comment"), [.fetch repoPath, .analyze, .publish text])

/-- Model of `handle_issue_comment_created` (src/main.py lines 123-165).  After
a successful fetch the duplicate guard inspects the last comment; when its body
ends with the signature marker the handler returns without analysing or
posting. -/
def handle_issue_comment_created (repoPath : String) (payload : Payload)
    (fetch : FetchOutcome) (claudeTimeoutEnv : Option String)
    (backend : BackendOutcome) (postOk : Bool) :
    Except Exc String × List Step :=
  if payload.issueLabelNames.any (fun n => n == some "claude-discuss") then
    match fetch with
    | .calledProcessError _ =>
      (.error (.http 500 "Failed to fetch issue details"), [.fetch repoPath])
    | .unexpectedError =>
      (.error (.http 500 "Failed to fetch issue details"), [.fetch repoPath])
    | .ok info =>
      let lastIsClaude : Bool :=
        match info.comments.getLast? with
        | some c => strEndsWith (c.body.getD "") claude_reply_signature
        | none => false
      if lastIsClaude then
        (.ok "Claude reply already exists", [.fetch repoPath, .dupCheck])
      else
        let text := analyze_issue_with_claude claudeTimeoutEnv backend
        if postOk then
          (.ok "Reply posted successfully",
            [.fetch repoPath, .dupCheck, .analyze, .publish text])
        else
          (.error (.http 500 "Failed to post reply"),
            [.fetch repoPath, .dupCheck, .analyze, .publish text])
  else
    (.ok "Issue not marked for claude-discuss", [])

/-! ## The endpoint (src/main.py lines 168-223) -/

/-- The signature verification step (src/main.py lines 180-183): hex-encode the
HMAC-SHA256 of the body keyed by the secret, add the `sha256=` marker in front,
and compare with the supplied header value using `compare_digest`.  The HMAC
primitive itself is the standard-library collaborator `hmacSha256`. -/
def signatureAccepts (hmacSha256 : String → List Nat → List Nat)
    (secret : String) (body : List Nat) (supplied : String) : Bool :=
  compare_digest ("sha256=" ++ hexEncode (hmacSha256 secret body)) supplied

/-- Lines 171-187 of src/main.py: secret lookup, signature header lookup,
signature verification, JSON parse, and the `event_type` concatenation.  A
falsy (missing or empty) secret or header fails closed; a missing
`X-GitHub-Event` header or `action` key makes the string concatenation raise
`TypeError`. -/
def preamble (hmacSha256 : String → List Nat → List Nat) (env : Env)
    (req : RequestInput) : Except Exc (Payload × String) :=
  match env.githubWebhookSecret with
  | none => .error (.http 500 "Webhook secret not configured")
  | some secret =>
    if secret = "" then .error (.http 500 "Webhook secret not configured")
    else
      match req.headers.xHubSignature256 with
      | none => .error (.http 400 "Missing signature header")
      | some supplied =>
        if supplied = "" then .error (.http 400 "Missing signature header")
        else if ¬ signatureAccepts hmacSha256 secret req.bodyBytes supplied then
          .error (.http 401 "Invalid signature")
        else
          match req.payloadParse with
          | none => .error .jsonError
          | some payload =>
            match req.headers.xGitHubEvent, payload.action with
            | some ev, some act => .ok (payload, ev ++ "." ++ act)
            | none, _ => .error .typeError
            | some _, none => .error .typeError

/-- Python `str.split(sep)` for a single-character separator, on character
lists: splitting the empty string gives one empty field, and every occurrence
of the separator starts a new field. -/
def splitChar (sep : Char) : List Char → List (List Char)
  | [] => [[]]
  | c :: rest =>
    let r := splitChar sep rest
    if c = sep then [] :: r
    else
      match r with
      | [] => [[c]]
      | h :: t => (c :: h) :: t

/-- The repository short name: `repo_full_name.split` on the slash, last
element (src/main.py line 195). -/
def shortName (fullName : String) : String :=
  String.mk ((splitChar '/' fullName.data).getLastD [])

/-- The shared working root `Path.home() / "workdir"`. -/
def workdirPath : String := "~/workdir"

/-- The per-repository clone directory `workdir / shortName`. -/
def repoPath (short : String) : String := workdirPath ++ "/" ++ short

/-- Lines 189-211 of src/main.py: resolve the clone directory from the
repository full name and clone it when absent.  `dirs` is the set of
subdirectory names already present under the working root.  Returns the
working directory for this request and the updated directory set (or the
raised exception), together with the clone steps executed. -/
def cloneEnsure (dirs : List String) (payload : Payload) (cloneOk : Bool) :
    Except Exc (String × List String) × List Step :=
  match payload.repoFullName with
  | none => (.error .attributeError, [])
  | some fullName =>
    let short := shortName fullName
    if short ∈ dirs then
      (.ok (repoPath short, dirs), [])
    else
      match payload.repoSshUrl with
      | none => (.error .typeError, [])
      | some url =>
        if cloneOk then
          (.ok (repoPath short, short :: dirs), [Step.clone url])
        else
          (.error (.http 500 "Failed to clone repository"), [Step.clone url])

/-- The body of the `github_webhook` endpoint, i.e. everything inside the outer
`try` (src/main.py lines 170-219): preamble, clone-ensure, then dispatch on
`event_type`.  Returns the inner result (JSON message or raised exception),
the full step trace, and the directory set after the request. -/
def github_webhook_try (hmacSha256 : String → List Nat → List Nat) (env : Env)
    (dirs : List String) (req : RequestInput) :
    Except Exc String × List Step × List String :=
  match preamble hmacSha256 env req with
  | .error e => (.error e, [], dirs)
  | .ok (payload, eventType) =>
    match cloneEnsure dirs payload req.cloneOk with
    | (.error e, tr) => (.error e, tr, dirs)
    | (.ok (rp, dirs2), tr) =>
      if eventType = "issues.labeled" then
        let hr := handle_issues_labeled rp payload req.fetch env.claudeTimeoutEnv
          req.backend req.postOk
        (hr.1, tr ++ hr.2, dirs2)
      else if eventType = "issue_comment.created" then
        let hr := handle_issue_comment_created rp payload req.fetch
          env.claudeTimeoutEnv req.backend req.postOk
        (hr.1, tr ++ hr.2, dirs2)
      else
        (.ok "Event ignored", tr, dirs2)

/-- The observable outcome of one request. -/
structure WebhookResult where
  resp : Resp
  trace : List Step
  dirs : List String
  deriving DecidableEq

/-- Model of the full `github_webhook` endpoint (src/main.py lines 168-223).
The outer `except Exception` catches every exception raised in the body —
including the `HTTPException`s raised for authentication failures, since
`HTTPException` derives from `Exception` — and re-raises it as a 500
`HTTPException`. -/
def github_webhook (hmacSha256 : String → List Nat → List Nat) (env : Env)
    (dirs : List String) (req : RequestInput) : WebhookResult :=
  let r := github_webhook_try hmacSha256 env dirs req
  { resp :=
      match r.1 with
      | .ok msg => Resp.ok msg
      | .error _ => Resp.serverError
    trace := r.2.1
    dirs := r.2.2 }

end Main

namespace Main

/-! ## Concrete example inputs used below to instantiate the theorems -/

/-- A concrete stand-in for the HMAC-SHA256 collaborator: every digest is the
two bytes `[0, 255]`, whose lowercase hex encoding is `00ff`. -/
def exHmac : String → List Nat → List Nat := fun _ _ => [0, 255]

/-- A concrete fully configured environment. -/
def exEnv : Env := { githubWebhookSecret := some "s", claudeTimeoutEnv := some "60" }

/-- A concrete `issues`/`labeled` request for the trigger label, with a correct
signature header for `exHmac` and all collaborators succeeding. -/
def exReq : RequestInput :=
  { headers := { xHubSignature256 := some "sha256=00ff", xGitHubEvent := some "issues" }
    bodyBytes := [1, 2]
    payloadParse := some
      { action := some "labeled"
        labelName := some "claude-discuss"
        repoFullName := some "alice/tool"
        repoSshUrl := some "git@github.com:alice/tool.git"
        issueNumber := some 3
        issueLabelNames := [] }
    cloneOk := true
    fetch := .ok { title := some "t", comments := [] }
    backend := .success "hello"
    postOk := true }

example : (github_webhook exHmac exEnv [] exReq).resp = .ok "Comment posted successfully" := by decide
example : (github_webhook exHmac exEnv [] exReq).trace =
    [Step.clone "git@github.com:alice/tool.git", Step.fetch (repoPath "tool"),
     Step.analyze, Step.publish ("hello" ++ claude_reply_signature)] := by decide
example : (github_webhook exHmac exEnv [] exReq).dirs = ["tool"] := by decide

/-! ## Correctness of the compare_digest model -/

theorem lor_eq_zero {m n : Nat} : m ||| n = 0 ↔ m = 0 ∧ n = 0 := by
  constructor
  · intro h
    constructor
    · apply Nat.zero_of_testBit_eq_false
      intro i
      have hb := congrArg (fun x => Nat.testBit x i) h
      simp only [Nat.testBit_lor, Nat.zero_testBit, Bool.or_eq_false_iff] at hb
      exact hb.1
    · apply Nat.zero_of_testBit_eq_false
      intro i
      have hb := congrArg (fun x => Nat.testBit x i) h
      simp only [Nat.testBit_lor, Nat.zero_testBit, Bool.or_eq_false_iff] at hb
      exact hb.2
  · rintro ⟨rfl, rfl⟩
    rfl

theorem foldl_lor_eq_zero (l : List Nat) (acc : Nat) :
    l.foldl Nat.lor acc = 0 ↔ acc = 0 ∧ ∀ x ∈ l, x = 0 := by
  induction l generalizing acc with
  | nil => simp
  | cons y ys ih =>
    rw [List.foldl_cons, ih]
    constructor
    · rintro ⟨h1, hall⟩
      have h2 : acc ||| y = 0 := h1
      refine ⟨(lor_eq_zero.mp h2).1, ?_⟩
      intro x hx
      rcases List.mem_cons.mp hx with h3 | h3
      · rw [h3]
        exact (lor_eq_zero.mp h2).2
      · exact hall x h3
    · rintro ⟨ha, hall⟩
      refine ⟨?_, fun x hx => hall x (List.mem_cons.mpr (Or.inr hx))⟩
      show acc ||| y = 0
      exact lor_eq_zero.mpr ⟨ha, hall y (List.mem_cons.mpr (Or.inl rfl))⟩

theorem char_toNat_inj {c d : Char} (h : c.toNat = d.toNat) : c = d := by
  have h2 := congrArg Char.ofNat h
  rwa [Char.ofNat_toNat, Char.ofNat_toNat] at h2

theorem zipWith_xor_zero_iff (l m : List Char) (hlen : l.length = m.length) :
    (∀ x ∈ List.zipWith (fun x y => Nat.xor x.toNat y.toNat) l m, x = 0) ↔ l = m := by
  induction l generalizing m with
  | nil =>
    cases m with
    | nil => simp
    | cons d ds => simp at hlen
  | cons c cs ih =>
    cases m with
    | nil => simp at hlen
    | cons d ds =>
      simp only [List.length_cons, Nat.add_right_cancel_iff] at hlen
      simp only [List.zipWith_cons_cons, List.mem_cons, List.cons.injEq]
      constructor
      · intro h
        have hc : c = d := char_toNat_inj (Nat.xor_eq_zero.mp (h _ (Or.inl rfl)))
        exact ⟨hc, (ih ds hlen).mp (fun x hx => h x (Or.inr hx))⟩
      · rintro ⟨rfl, rfl⟩
        intro x hx
        rcases hx with h1 | h2
        · rw [h1]
          exact Nat.xor_self _
        · exact ((ih cs hlen).mpr rfl) x h2

/-- The comparison the verifier uses accepts exactly the equal strings. -/
theorem compare_digest_iff (a b : String) : compare_digest a b = true ↔ a = b := by
  unfold compare_digest
  simp only [Bool.and_eq_true, beq_iff_eq, String.ext_iff]
  constructor
  · rintro ⟨hlen, hfold⟩
    have hall := (foldl_lor_eq_zero _ 0).mp hfold
    exact (zipWith_xor_zero_iff a.data b.data hlen).mp hall.2
  · intro h
    refine ⟨by rw [h], ?_⟩
    refine (foldl_lor_eq_zero _ 0).mpr ⟨rfl, ?_⟩
    exact (zipWith_xor_zero_iff a.data b.data (by rw [h])).mpr h

end Main

namespace Main

/-! ## String suffix facts -/

theorem strEndsWith_append (a b : String) : strEndsWith (a ++ b) b = true := by
  unfold strEndsWith
  rw [List.isSuffixOf_iff_suffix, String.data_append]
  exact ⟨a.data, rfl⟩

theorem append_ne_empty_of_right (a b : String) (hb : b ≠ "") : a ++ b ≠ "" := by
  intro h
  apply hb
  have hd := congrArg String.data h
  rw [String.data_append] at hd
  exact String.ext (List.append_eq_nil.mp hd).2

theorem signature_ne_empty : claude_reply_signature ≠ "" := by decide

/-! ## Facts about the analysis invoker -/

theorem analyze_ends_with_signature (t : Option String) (b : BackendOutcome) :
    strEndsWith (analyze_issue_with_claude t b) claude_reply_signature = true := by
  unfold analyze_issue_with_claude
  cases t.bind pyInt? with
  | none => exact strEndsWith_append _ _
  | some v =>
    cases b with
    | success out => exact strEndsWith_append _ _
    | calledProcessError e => exact strEndsWith_append _ _
    | timeoutExpired => exact strEndsWith_append _ _
    | unexpectedError => exact strEndsWith_append _ _

theorem analyze_ne_empty (t : Option String) (b : BackendOutcome) :
    analyze_issue_with_claude t b ≠ "" := by
  unfold analyze_issue_with_claude
  cases t.bind pyInt? with
  | none => exact append_ne_empty_of_right _ _ signature_ne_empty
  | some v =>
    cases b with
    | success out => exact append_ne_empty_of_right _ _ signature_ne_empty
    | calledProcessError e => exact append_ne_empty_of_right _ _ signature_ne_empty
    | timeoutExpired => exact append_ne_empty_of_right _ _ signature_ne_empty
    | unexpectedError => exact append_ne_empty_of_right _ _ signature_ne_empty

/-! ## Trace characterizations -/

theorem github_webhook_trace (hm : String → List Nat → List Nat) (env : Env)
    (dirs : List String) (req : RequestInput) :
    (github_webhook hm env dirs req).trace =
      (github_webhook_try hm env dirs req).2.1 := rfl

theorem github_webhook_dirs (hm : String → List Nat → List Nat) (env : Env)
    (dirs : List String) (req : RequestInput) :
    (github_webhook hm env dirs req).dirs =
      (github_webhook_try hm env dirs req).2.2 := rfl

theorem cloneEnsure_steps (dirs : List String) (payload : Payload) (c : Bool) :
    (cloneEnsure dirs payload c).2 = [] ∨
      ∃ u, (cloneEnsure dirs payload c).2 = [Step.clone u] := by
  unfold cloneEnsure
  cases payload.repoFullName with
  | none => simp
  | some fullName =>
    by_cases hmem : shortName fullName ∈ dirs
    · simp [hmem]
    · cases payload.repoSshUrl with
      | none => simp [hmem]
      | some url =>
        by_cases hc : c
        · simp [hmem, hc]
        · simp [hmem, hc]

theorem handle_issues_labeled_trace (rp : String) (payload : Payload)
    (f : FetchOutcome) (te : Option String) (b : BackendOutcome) (p : Bool) :
    (handle_issues_labeled rp payload f te b p).2 = [] ∨
    (handle_issues_labeled rp payload f te b p).2 = [Step.fetch rp] ∨
    (handle_issues_labeled rp payload f te b p).2 =
      [Step.fetch rp, Step.analyze,
       Step.publish (analyze_issue_with_claude te b)] := by
  unfold handle_issues_labeled
  by_cases hl : payload.labelName ≠ some "claude-discuss"
  · simp [hl]
  · cases f with
    | calledProcessError e => simp [hl]
    | unexpectedError => simp [hl]
    | ok info =>
      by_cases hp : p
      · simp [hl, hp]
      · simp [hl, hp]

theorem handle_issue_comment_created_trace (rp : String) (payload : Payload)
    (f : FetchOutcome) (te : Option String) (b : BackendOutcome) (p : Bool) :
    (handle_issue_comment_created rp payload f te b p).2 = [] ∨
    (handle_issue_comment_created rp payload f te b p).2 = [Step.fetch rp] ∨
    (handle_issue_comment_created rp payload f te b p).2 =
      [Step.fetch rp, Step.dupCheck] ∨
    (handle_issue_comment_created rp payload f te b p).2 =
      [Step.fetch rp, Step.dupCheck, Step.analyze,
       Step.publish (analyze_issue_with_claude te b)] := by
  unfold handle_issue_comment_created
  by_cases hl : payload.issueLabelNames.any (fun n => n == some "claude-discuss")
  · cases f with
    | calledProcessError e => simp [hl]
    | unexpectedError => simp [hl]
    | ok info =>
      by_cases hd : (match info.comments.getLast? with
        | some c => strEndsWith (c.body.getD "") claude_reply_signature
        | none => false)
      · simp [hl, hd]
      · by_cases hp : p
        · simp [hl, hd, hp]
        · simp [hl, hd, hp]
  · simp [hl]

end Main

namespace Main

/-- Every text passed to the comment publisher during a request is the output
of the analysis invoker for that request. -/
theorem webhook_publish_eq (hm : String → List Nat → List Nat) (env : Env)
    (dirs : List String) (req : RequestInput) (t : String)
    (h : Step.publish t ∈ (github_webhook hm env dirs req).trace) :
    t = analyze_issue_with_claude env.claudeTimeoutEnv req.backend := by
  rw [github_webhook_trace] at h
  unfold github_webhook_try at h
  cases hp : preamble hm env req with
  | error e => rw [hp] at h; simp at h
  | ok pe =>
    obtain ⟨payload, et⟩ := pe
    rw [hp] at h
    dsimp only at h
    rcases hc : cloneEnsure dirs payload req.cloneOk with ⟨exc, tr⟩
    have htr : tr = [] ∨ ∃ u, tr = [Step.clone u] := by
      have := cloneEnsure_steps dirs payload req.cloneOk
      rw [hc] at this
      exact this
    have hnotr : Step.publish t ∉ tr := by
      rcases htr with h1 | ⟨u, h1⟩ <;> subst h1 <;> simp
    cases exc with
    | error e =>
      rw [hc] at h
      dsimp only at h
      exact absurd h hnotr
    | ok rd =>
      obtain ⟨rp, dirs2⟩ := rd
      rw [hc] at h
      dsimp only at h
      by_cases h1 : et = "issues.labeled"
      · simp only [h1, if_pos, List.mem_append] at h
        rcases h with h2 | h2
        · exact absurd h2 hnotr
        · have := handle_issues_labeled_trace rp payload req.fetch
            env.claudeTimeoutEnv req.backend req.postOk
          rcases this with h3 | h3 | h3 <;> rw [h3] at h2 <;> simp at h2
          exact h2
      · by_cases h2 : et = "issue_comment.created"
        · simp only [h1, h2, if_neg, if_pos] at h
          rcases List.mem_append.mp h with h3 | h3
          · exact absurd h3 hnotr
          · have := handle_issue_comment_created_trace rp payload req.fetch
              env.claudeTimeoutEnv req.backend req.postOk
            rcases this with h4 | h4 | h4 | h4 <;> rw [h4] at h3 <;> simp at h3
            exact h3
        · simp only [h1, h2, if_neg] at h
          exact absurd h hnotr

/-- C1: every reply text the system posts as a comment — from a successful
backend analysis, a backend error, a backend timeout, or an unexpected
failure — is non-empty and ends with the exact `claude_reply_signature`
marker, for every input issue context. -/
theorem c1_posted_reply_signed (hm : String → List Nat → List Nat) (env : Env)
    (dirs : List String) (req : RequestInput) (text : String)
    (h : Step.publish text ∈ (github_webhook hm env dirs req).trace) :
    text ≠ "" ∧ strEndsWith text claude_reply_signature = true := by
  rw [webhook_publish_eq hm env dirs req text h]
  exact ⟨analyze_ne_empty _ _, analyze_ends_with_signature _ _⟩

end Main

namespace Main

theorem github_webhook_resp (hm : String → List Nat → List Nat) (env : Env)
    (dirs : List String) (req : RequestInput) :
    (github_webhook hm env dirs req).resp =
      (match (github_webhook_try hm env dirs req).1 with
       | .ok msg => Resp.ok msg
       | .error _ => Resp.serverError) := rfl

/-- Master decomposition: every request trace is a clone part followed by a
handler part, and each part has one of finitely many shapes. -/
theorem webhook_trace_cases (hm : String → List Nat → List Nat) (env : Env)
    (dirs : List String) (req : RequestInput) :
    ∃ ctr htr, (github_webhook hm env dirs req).trace = ctr ++ htr ∧
      (ctr = [] ∨ ∃ u, ctr = [Step.clone u]) ∧
      (htr = [] ∨ (∃ rp, htr = [Step.fetch rp]) ∨
       (∃ rp, htr = [Step.fetch rp, Step.dupCheck]) ∨
       (∃ rp, htr = [Step.fetch rp, Step.analyze,
         Step.publish (analyze_issue_with_claude env.claudeTimeoutEnv req.backend)]) ∨
       (∃ rp, htr = [Step.fetch rp, Step.dupCheck, Step.analyze,
         Step.publish (analyze_issue_with_claude env.claudeTimeoutEnv req.backend)])) := by
  rw [github_webhook_trace]
  unfold github_webhook_try
  cases hp : preamble hm env req with
  | error e =>
    exact ⟨[], [], by simp, Or.inl rfl, Or.inl rfl⟩
  | ok pe =>
    obtain ⟨payload, et⟩ := pe
    have hctr := cloneEnsure_steps dirs payload req.cloneOk
    rcases hc : cloneEnsure dirs payload req.cloneOk with ⟨exc, tr⟩
    rw [hc] at hctr
    cases exc with
    | error e =>
      refine ⟨tr, [], by simp [hc], hctr, Or.inl rfl⟩
    | ok rd =>
      obtain ⟨rp, dirs2⟩ := rd
      by_cases h1 : et = "issues.labeled"
      · have hh := handle_issues_labeled_trace rp payload req.fetch
          env.claudeTimeoutEnv req.backend req.postOk
        refine ⟨tr, (handle_issues_labeled rp payload req.fetch
          env.claudeTimeoutEnv req.backend req.postOk).2, by simp [hc, h1], hctr, ?_⟩
        rcases hh with h2 | h2 | h2 <;> rw [h2]
        · exact Or.inl rfl
        · exact Or.inr (Or.inl ⟨rp, rfl⟩)
        · exact Or.inr (Or.inr (Or.inr (Or.inl ⟨rp, rfl⟩)))
      · by_cases h2 : et = "issue_comment.created"
        · have hh := handle_issue_comment_created_trace rp payload req.fetch
            env.claudeTimeoutEnv req.backend req.postOk
          refine ⟨tr, (handle_issue_comment_created rp payload req.fetch
            env.claudeTimeoutEnv req.backend req.postOk).2, by simp [hc, h1, h2], hctr, ?_⟩
          rcases hh with h3 | h3 | h3 | h3 <;> rw [h3]
          · exact Or.inl rfl
          · exact Or.inr (Or.inl ⟨rp, rfl⟩)
          · exact Or.inr (Or.inr (Or.inl ⟨rp, rfl⟩))
          · exact Or.inr (Or.inr (Or.inr (Or.inr ⟨rp, rfl⟩)))
        · refine ⟨tr, [], by simp [hc, h1, h2], hctr, Or.inl rfl⟩

end Main

namespace Main

/-- C2: for every `issue_comment`/`created` event on an issue carrying the
trigger label, if the fetched issue's comment list is non-empty and the last
comment's body ends with the exact signature marker, the request returns the
200 duplicate response and no analysis or publish step runs. -/
theorem c2_duplicate_guard (hm : String → List Nat → List Nat) (env : Env)
    (dirs : List String) (req : RequestInput) (payload : Payload) (rp : String)
    (dirs2 : List String) (ctr : List Step) (info : IssueInfo) (c : CommentObj)
    (hpre : preamble hm env req = .ok (payload, "issue_comment.created"))
    (hclone : cloneEnsure dirs payload req.cloneOk = (.ok (rp, dirs2), ctr))
    (hlab : payload.issueLabelNames.any (fun n => n == some "claude-discuss") = true)
    (hfetch : req.fetch = .ok info)
    (hlast : info.comments.getLast? = some c)
    (hsig : strEndsWith (c.body.getD "") claude_reply_signature = true) :
    (github_webhook hm env dirs req).resp = .ok "Claude reply already exists" ∧
    (github_webhook hm env dirs req).resp.status = 200 ∧
    Step.analyze ∉ (github_webhook hm env dirs req).trace ∧
    (∀ t, Step.publish t ∉ (github_webhook hm env dirs req).trace) := by
  have hh : handle_issue_comment_created rp payload req.fetch env.claudeTimeoutEnv
      req.backend req.postOk =
      (.ok "Claude reply already exists", [Step.fetch rp, Step.dupCheck]) := by
    unfold handle_issue_comment_created
    rw [hfetch]
    simp [hlab, hlast, hsig]
  have htry : github_webhook_try hm env dirs req =
      (.ok "Claude reply already exists", ctr ++ [Step.fetch rp, Step.dupCheck], dirs2) := by
    unfold github_webhook_try
    rw [hpre]
    dsimp only
    rw [hclone]
    dsimp only
    rw [if_neg (by decide), if_pos rfl, hh]
  have hctr := cloneEnsure_steps dirs payload req.cloneOk
  rw [hclone] at hctr
  refine ⟨?_, ?_, ?_, ?_⟩
  · rw [github_webhook_resp, htry]
  · rw [github_webhook_resp, htry]
    rfl
  · rw [github_webhook_trace, htry]
    rcases hctr with h1 | ⟨u, h1⟩ <;> subst h1 <;> simp
  · intro t
    rw [github_webhook_trace, htry]
    rcases hctr with h1 | ⟨u, h1⟩ <;> subst h1 <;> simp

/-- Analysis results under a failed backend are exactly the canned fallbacks. -/
theorem analyze_fallback_of_failure (te : Option String) (b : BackendOutcome)
    (hb : ∀ out, b ≠ BackendOutcome.success out) :
    analyze_issue_with_claude te b = fallback_api_error ∨
    analyze_issue_with_claude te b = fallback_timeout ∨
    analyze_issue_with_claude te b = fallback_unexpected := by
  unfold analyze_issue_with_claude
  cases te.bind pyInt? with
  | none => exact Or.inr (Or.inr rfl)
  | some v =>
    cases b with
    | success out => exact absurd rfl (hb out)
    | calledProcessError e => exact Or.inl rfl
    | timeoutExpired => exact Or.inr (Or.inl rfl)
    | unexpectedError => exact Or.inr (Or.inr rfl)

/-- C3: whenever the analysis step ran and the backend invocation failed in any
way (non-zero exit, timeout, or any other exception), the pipeline still
invokes the comment publisher, with a canned signature-suffixed fallback
message substituted for the analysis result. -/
theorem c3_fallback_still_published (hm : String → List Nat → List Nat)
    (env : Env) (dirs : List String) (req : RequestInput)
    (hb : ∀ out, req.backend ≠ BackendOutcome.success out)
    (hana : Step.analyze ∈ (github_webhook hm env dirs req).trace) :
    ∃ fb, Step.publish fb ∈ (github_webhook hm env dirs req).trace ∧
      fb = analyze_issue_with_claude env.claudeTimeoutEnv req.backend ∧
      (fb = fallback_api_error ∨ fb = fallback_timeout ∨ fb = fallback_unexpected) ∧
      strEndsWith fb claude_reply_signature = true := by
  obtain ⟨ctr, htr, heq, hctr, hhtr⟩ := webhook_trace_cases hm env dirs req
  rw [heq] at hana ⊢
  have hana2 : Step.analyze ∈ htr := by
    rcases List.mem_append.mp hana with h1 | h1
    · rcases hctr with h2 | ⟨u, h2⟩ <;> subst h2 <;> simp at h1
    · exact h1
  refine ⟨analyze_issue_with_claude env.claudeTimeoutEnv req.backend, ?_,
    rfl, analyze_fallback_of_failure _ _ hb, analyze_ends_with_signature _ _⟩
  apply List.mem_append.mpr
  right
  rcases hhtr with h2 | ⟨rp, h2⟩ | ⟨rp, h2⟩ | ⟨rp, h2⟩ | ⟨rp, h2⟩ <;>
    subst h2 <;> simp at hana2 ⊢

end Main

namespace Main

/-- C4: the signature check accepts a request exactly when the supplied
`X-Hub-Signature-256` header equals `sha256=` followed by the lowercase hex
encoding of the HMAC-SHA256 of the raw body bytes keyed by the secret; the
comparison is the `compare_digest` algorithm. -/
theorem c4_signature_check_iff (hmacSha256 : String → List Nat → List Nat)
    (secret : String) (body : List Nat) (supplied : String) :
    signatureAccepts hmacSha256 secret body supplied = true ↔
      supplied = "sha256=" ++ hexEncode (hmacSha256 secret body) := by
  unfold signatureAccepts
  rw [compare_digest_iff]
  exact eq_comm

/-- A request whose signature header is present but wrong for `exHmac`. -/
def c5Req : RequestInput :=
  { headers := { xHubSignature256 := some "sha256=ffff", xGitHubEvent := some "issues" }
    bodyBytes := [1, 2]
    payloadParse := some
      { action := some "labeled"
        labelName := some "claude-discuss"
        repoFullName := some "alice/tool"
        repoSshUrl := some "git@github.com:alice/tool.git"
        issueNumber := some 3
        issueLabelNames := [] }
    cloneOk := true
    fetch := .ok { title := some "t", comments := [] }
    backend := .success "hello"
    postOk := true }

/-- C5 at a concrete mismatched-signature request: the endpoint body raises
the 401 `HTTPException`, but because `HTTPException` derives from `Exception`
the outer handler catches it and re-raises a 500, so the observed response
status is 500, not 401; no step beyond the signature check runs. -/
theorem c5_mismatch_observed_status :
    github_webhook_try exHmac exEnv [] c5Req =
      (.error (.http 401 "Invalid signature"), [], []) ∧
    (github_webhook exHmac exEnv [] c5Req).resp = .serverError ∧
    (github_webhook exHmac exEnv [] c5Req).resp.status = 500 ∧
    ¬ (github_webhook exHmac exEnv [] c5Req).resp.status = 401 ∧
    (github_webhook exHmac exEnv [] c5Req).trace = [] := by decide

/-- A correctly signed request whose payload has no `action` key. -/
def c6Req : RequestInput :=
  { headers := { xHubSignature256 := some "sha256=00ff", xGitHubEvent := some "issues" }
    bodyBytes := [1, 2]
    payloadParse := some
      { action := none
        labelName := some "bug"
        repoFullName := some "alice/tool"
        repoSshUrl := some "git@github.com:alice/tool.git"
        issueNumber := some 3
        issueLabelNames := [] }
    cloneOk := true
    fetch := .ok { title := some "t", comments := [] }
    backend := .success "hello"
    postOk := true }

/-- C6 counterexample: an authenticated request whose payload lacks the
`action` field does not get the 200 ignored response; the `None`
concatenation raises `TypeError` and the catch-all turns it into a 500. -/
theorem c6_missing_action_not_ignored :
    github_webhook_try exHmac exEnv [] c6Req = (.error .typeError, [], []) ∧
    (github_webhook exHmac exEnv [] c6Req).resp = .serverError ∧
    (github_webhook exHmac exEnv [] c6Req).resp.status = 500 ∧
    ¬ ((github_webhook exHmac exEnv [] c6Req).resp.status = 200) := by decide

/-- C6 amended: for every authenticated request whose event header and action
field are both present and whose `event_type` matches neither handled case, no
fetch, duplicate-check, analysis or publish step runs; when the repository
resolution and clone-ensure step succeed the response is 200 `Event ignored`
(the clone-ensure step itself may still have run), and when they fail the
response is 500. -/
theorem c6_unmatched_pair_ignored (hm : String → List Nat → List Nat)
    (env : Env) (dirs : List String) (req : RequestInput) (payload : Payload)
    (et : String)
    (hpre : preamble hm env req = .ok (payload, et))
    (hne1 : et ≠ "issues.labeled")
    (hne2 : et ≠ "issue_comment.created") :
    (∀ cwd, Step.fetch cwd ∉ (github_webhook hm env dirs req).trace) ∧
    Step.dupCheck ∉ (github_webhook hm env dirs req).trace ∧
    Step.analyze ∉ (github_webhook hm env dirs req).trace ∧
    (∀ t, Step.publish t ∉ (github_webhook hm env dirs req).trace) ∧
    (∀ rp dirs2 ctr, cloneEnsure dirs payload req.cloneOk = (.ok (rp, dirs2), ctr) →
      (github_webhook hm env dirs req).resp = .ok "Event ignored" ∧
      (github_webhook hm env dirs req).resp.status = 200) ∧
    (∀ e ctr, cloneEnsure dirs payload req.cloneOk = (.error e, ctr) →
      (github_webhook hm env dirs req).resp = .serverError ∧
      (github_webhook hm env dirs req).resp.status = 500) := by
  have hctr := cloneEnsure_steps dirs payload req.cloneOk
  rcases hc : cloneEnsure dirs payload req.cloneOk with ⟨exc, tr⟩
  rw [hc] at hctr
  cases exc with
  | error e =>
    have htry : github_webhook_try hm env dirs req = (.error e, tr, dirs) := by
      unfold github_webhook_try
      rw [hpre]
      dsimp only
      rw [hc]
    refine ⟨?_, ?_, ?_, ?_, ?_, ?_⟩
    · intro cwd
      rw [github_webhook_trace, htry]
      rcases hctr with h1 | ⟨u, h1⟩ <;> subst h1 <;> simp
    · rw [github_webhook_trace, htry]
      rcases hctr with h1 | ⟨u, h1⟩ <;> subst h1 <;> simp
    · rw [github_webhook_trace, htry]
      rcases hctr with h1 | ⟨u, h1⟩ <;> subst h1 <;> simp
    · intro t
      rw [github_webhook_trace, htry]
      rcases hctr with h1 | ⟨u, h1⟩ <;> subst h1 <;> simp
    · intro rp dirs2 ctr h
      simp at h
    · intro e2 ctr h
      constructor
      · rw [github_webhook_resp, htry]
      · rw [github_webhook_resp, htry]
        rfl
  | ok rd =>
    obtain ⟨rp0, dirs20⟩ := rd
    have htry : github_webhook_try hm env dirs req =
        (.ok "Event ignored", tr, dirs20) := by
      unfold github_webhook_try
      rw [hpre]
      dsimp only
      rw [hc]
      dsimp only
      rw [if_neg hne1, if_neg hne2]
    refine ⟨?_, ?_, ?_, ?_, ?_, ?_⟩
    · intro cwd
      rw [github_webhook_trace, htry]
      rcases hctr with h1 | ⟨u, h1⟩ <;> subst h1 <;> simp
    · rw [github_webhook_trace, htry]
      rcases hctr with h1 | ⟨u, h1⟩ <;> subst h1 <;> simp
    · rw [github_webhook_trace, htry]
      rcases hctr with h1 | ⟨u, h1⟩ <;> subst h1 <;> simp
    · intro t
      rw [github_webhook_trace, htry]
      rcases hctr with h1 | ⟨u, h1⟩ <;> subst h1 <;> simp
    · intro rp dirs2 ctr h
      constructor
      · rw [github_webhook_resp, htry]
      · rw [github_webhook_resp, htry]
        rfl
    · intro e2 ctr h
      simp at h

end Main

namespace Main

/-- Payload of an `issues`/`opened` event, a combination the classifier
ignores. -/
def c7Payload : Payload :=
  { action := some "opened"
    labelName := none
    repoFullName := some "alice/tool"
    repoSshUrl := some "git@github.com:alice/tool.git"
    issueNumber := some 3
    issueLabelNames := [] }

/-- A correctly signed `issues`/`opened` request (an ignored combination) for a
repository that has never been cloned. -/
def c7Req : RequestInput :=
  { headers := { xHubSignature256 := some "sha256=00ff", xGitHubEvent := some "issues" }
    bodyBytes := [1, 2]
    payloadParse := some c7Payload
    cloneOk := true
    fetch := .ok { title := some "t", comments := [] }
    backend := .success "hello"
    postOk := true }

/-- C7 counterexample: an event the classifier ignores (`issues`/`opened`)
still executes the side-effecting clone step, because the clone-ensure block
runs before the event-type dispatch. -/
theorem c7_ignored_event_still_clones :
    (github_webhook exHmac exEnv [] c7Req).resp = .ok "Event ignored" ∧
    (github_webhook exHmac exEnv [] c7Req).trace =
      [Step.clone "git@github.com:alice/tool.git"] ∧
    Step.clone "git@github.com:alice/tool.git" ∈
      (github_webhook exHmac exEnv [] c7Req).trace := by decide

/-- C7 amended: the steps that do run always occur in the strict order
clone → fetch → duplicate-check → analyze → publish (each at most once), but
the clone-ensure step is not restricted to classifier-matched requests: every
authenticated well-formed request for an uncached repository performs the
clone, whatever its event type. -/
theorem c7_step_order (hm : String → List Nat → List Nat) (env : Env)
    (dirs : List String) (req : RequestInput) :
    ((github_webhook hm env dirs req).trace.map Step.kind).Sublist
      [StepKind.clone, StepKind.fetch, StepKind.dupCheck,
       StepKind.analyze, StepKind.publish] ∧
    (∀ payload et fullName url,
      preamble hm env req = .ok (payload, et) →
      payload.repoFullName = some fullName →
      shortName fullName ∉ dirs →
      payload.repoSshUrl = some url →
      req.cloneOk = true →
      Step.clone url ∈ (github_webhook hm env dirs req).trace) := by
  constructor
  · obtain ⟨ctr, htr, heq, hctr, hhtr⟩ := webhook_trace_cases hm env dirs req
    rw [heq, List.map_append]
    have h1 : (ctr.map Step.kind).Sublist [StepKind.clone] := by
      rcases hctr with h | ⟨u, h⟩ <;> subst h <;>
        simp only [List.map_cons, List.map_nil, Step.kind] <;> decide
    have h2 : (htr.map Step.kind).Sublist
        [StepKind.fetch, StepKind.dupCheck, StepKind.analyze, StepKind.publish] := by
      rcases hhtr with h | ⟨rp, h⟩ | ⟨rp, h⟩ | ⟨rp, h⟩ | ⟨rp, h⟩ <;> subst h <;>
        simp only [List.map_cons, List.map_nil, Step.kind] <;> decide
    exact List.Sublist.append h1 h2
  · intro payload et fullName url hpre hfn hmem hurl hcl
    have hclone : cloneEnsure dirs payload req.cloneOk =
        (.ok (repoPath (shortName fullName), shortName fullName :: dirs),
         [Step.clone url]) := by
      unfold cloneEnsure
      rw [hfn]
      dsimp only
      rw [if_neg hmem, hurl]
      dsimp only
      rw [hcl, if_pos rfl]
    rw [github_webhook_trace]
    unfold github_webhook_try
    rw [hpre]
    dsimp only
    rw [hclone]
    dsimp only
    by_cases h1 : et = "issues.labeled"
    · simp [h1]
    · by_cases h2 : et = "issue_comment.created"
      · simp [h1, h2]
      · simp [h1, h2]

end Main

namespace Main

/-- C8 counterexample: `CLAUDE_TIMEOUT` is not validated at startup.  With no
timeout configured the analysis invocation still runs and returns the
unexpected-error fallback — even for a backend that would have succeeded —
while the same invocation with a configured timeout returns the backend
output.  The behaviour thus differs at analysis-invocation time instead of
failing at startup. -/
theorem c8_no_timeout_invocation_fallback :
    analyze_issue_with_claude none (BackendOutcome.success "ok") =
      fallback_unexpected ∧
    analyze_issue_with_claude (some "60") (BackendOutcome.success "ok") =
      "ok" ++ claude_reply_signature ∧
    analyze_issue_with_claude none (BackendOutcome.success "ok") ≠
      analyze_issue_with_claude (some "60") (BackendOutcome.success "ok") := by
  decide

/-- C8 amended: the timeout is read from the environment at each analysis
invocation, not at startup; whenever `CLAUDE_TIMEOUT` is missing or does not
parse as an integer, the invocation returns the canned unexpected-error
fallback (signature-suffixed) regardless of the backend's behaviour. -/
theorem c8_timeout_read_at_invocation (te : Option String) (b : BackendOutcome)
    (h : te.bind pyInt? = none) :
    analyze_issue_with_claude te b = fallback_unexpected := by
  unfold analyze_issue_with_claude
  rw [h]

/-- C8 amended, instantiated at a missing timeout and a successful backend. -/
theorem c8_timeout_read_at_invocation_witness :
    analyze_issue_with_claude none (BackendOutcome.success "ok") =
      fallback_unexpected :=
  c8_timeout_read_at_invocation none (BackendOutcome.success "ok") rfl

/-! ## Concurrency of the clone-if-absent block (C9)

Both endpoints of src/main.py are `async def` coroutines served by a single
uvicorn worker (`uvicorn.run(app, ...)` passes the application object, so one
process, one event loop, no thread pool for the endpoint bodies).  An asyncio
coroutine yields control only at an `await`, and lines 193-211 — from the
`repo_path.exists()` check through the blocking `subprocess.run` clone —
contain no `await`.  The whole clone-if-absent block of one request therefore
runs to completion before any other request can resume: two concurrent first
requests for the same repository execute their blocks in one of the two
sequential orders.  The model below runs the first request's block and then
the second request's block against the shared directory state; quantifying
over both payloads covers both orders. -/

/-- Whether a step is a clone operation. -/
def Step.isClone : Step → Bool
  | .clone _ => true
  | _ => false

/-- Number of clone operations in a trace. -/
def cloneCount (tr : List Step) : Nat := (tr.filter Step.isClone).length

/-- Directory state after one request's clone-if-absent block. -/
def dirsAfter (dirs : List String) (p : Payload) (c : Bool) : List String :=
  match (cloneEnsure dirs p c).1 with
  | .ok pr => pr.2
  | .error _ => dirs

/-- The clone traces of two requests whose clone-if-absent blocks run in
sequence (first `pA`'s block, then `pB`'s) against the shared directory
state — the only executions the single-threaded event loop admits. -/
def cloneEnsureTwice (dirs : List String) (pA pB : Payload) (cA cB : Bool) :
    List Step × List Step :=
  ((cloneEnsure dirs pA cA).2, (cloneEnsure (dirsAfter dirs pA cA) pB cB).2)

/-- C9: for two concurrent first requests naming the same never-before-seen
repository, the request scheduled first performs the single clone and the
other performs none: exactly one clone operation is executed in total, and
since the two blocks run sequentially on the event loop, at most one clone is
ever in flight. -/
theorem c9_clone_once (dirs : List String) (pA pB : Payload) (cB : Bool)
    (full uA : String)
    (hA : pA.repoFullName = some full)
    (hB : pB.repoFullName = some full)
    (hnew : shortName full ∉ dirs)
    (huA : pA.repoSshUrl = some uA) :
    cloneCount (cloneEnsureTwice dirs pA pB true cB).1 = 1 ∧
    cloneCount (cloneEnsureTwice dirs pA pB true cB).2 = 0 ∧
    cloneCount (cloneEnsureTwice dirs pA pB true cB).1 +
      cloneCount (cloneEnsureTwice dirs pA pB true cB).2 = 1 := by
  have hcA : cloneEnsure dirs pA true =
      (.ok (repoPath (shortName full), shortName full :: dirs), [Step.clone uA]) := by
    unfold cloneEnsure
    rw [hA]
    dsimp only
    rw [if_neg hnew, huA]
    dsimp only
    rw [if_pos rfl]
  have hdirs : dirsAfter dirs pA true = shortName full :: dirs := by
    unfold dirsAfter
    rw [hcA]
  have hcB : cloneEnsure (dirsAfter dirs pA true) pB cB =
      (.ok (repoPath (shortName full), shortName full :: dirs), []) := by
    rw [hdirs]
    unfold cloneEnsure
    rw [hB]
    dsimp only
    rw [if_pos (List.mem_cons_self _ _)]
  unfold cloneEnsureTwice
  rw [hcA, hcB]
  refine ⟨?_, ?_, ?_⟩ <;> simp [cloneCount, Step.isClone]

/-- C9 instantiated: two first requests for `alice/tool` against an empty
cache execute exactly one clone. -/
theorem c9_clone_once_witness :
    cloneCount (cloneEnsureTwice [] c7Payload c7Payload true true).1 = 1 ∧
    cloneCount (cloneEnsureTwice [] c7Payload c7Payload true true).2 = 0 ∧
    cloneCount (cloneEnsureTwice [] c7Payload c7Payload true true).1 +
      cloneCount (cloneEnsureTwice [] c7Payload c7Payload true true).2 = 1 :=
  c9_clone_once [] c7Payload c7Payload true "alice/tool"
    "git@github.com:alice/tool.git" (by decide) (by decide) (by decide) (by decide)

end Main

namespace Main

/-- A successful preamble returns exactly the parsed payload of the request. -/
theorem preamble_payload (hm : String → List Nat → List Nat) (env : Env)
    (req : RequestInput) (p : Payload) (et : String)
    (h : preamble hm env req = .ok (p, et)) : req.payloadParse = some p := by
  unfold preamble at h
  repeat' split at h
  all_goals simp_all

theorem labeled_trace_steps (rp : String) (payload : Payload) (f : FetchOutcome)
    (te : Option String) (b : BackendOutcome) (p : Bool) :
    (∀ u, Step.clone u ∉ (handle_issues_labeled rp payload f te b p).2) ∧
    (∀ cwd, Step.fetch cwd ∈ (handle_issues_labeled rp payload f te b p).2 →
      cwd = rp) := by
  rcases handle_issues_labeled_trace rp payload f te b p with h | h | h <;>
    rw [h] <;> constructor <;> intro x hx <;> simp_all

theorem comment_trace_steps (rp : String) (payload : Payload) (f : FetchOutcome)
    (te : Option String) (b : BackendOutcome) (p : Bool) :
    (∀ u, Step.clone u ∉ (handle_issue_comment_created rp payload f te b p).2) ∧
    (∀ cwd, Step.fetch cwd ∈ (handle_issue_comment_created rp payload f te b p).2 →
      cwd = rp) := by
  rcases handle_issue_comment_created_trace rp payload f te b p with h | h | h | h <;>
    rw [h] <;> constructor <;> intro x hx <;> simp_all

/-- C10: the repository cache is keyed only by the short name.  If a repository
whose full name has short name `s` has already been cloned, then a request for
any other repository with the same short name performs no clone, leaves the
cache unchanged, and issues every issue-fetch command inside the first
repository's clone directory. -/
theorem c10_cache_keyed_by_short_name (hm : String → List Nat → List Nat)
    (env : Env) (dirs : List String) (req : RequestInput) (payload : Payload)
    (full1 full2 : String)
    (hdir : shortName full1 ∈ dirs)
    (hpp : req.payloadParse = some payload)
    (hfn : payload.repoFullName = some full2)
    (hne : full1 ≠ full2)
    (hsn : shortName full2 = shortName full1) :
    (∀ u, Step.clone u ∉ (github_webhook hm env dirs req).trace) ∧
    (∀ cwd, Step.fetch cwd ∈ (github_webhook hm env dirs req).trace →
      cwd = repoPath (shortName full1)) ∧
    (github_webhook hm env dirs req).dirs = dirs := by
  cases hp : preamble hm env req with
  | error e =>
    have htry : github_webhook_try hm env dirs req = (.error e, [], dirs) := by
      unfold github_webhook_try
      rw [hp]
    rw [github_webhook_trace, github_webhook_dirs, htry]
    exact ⟨by intro u; simp, by intro cwd hc; simp at hc, rfl⟩
  | ok pe =>
    obtain ⟨payload2, et⟩ := pe
    have hpeq : payload2 = payload := by
      have := preamble_payload hm env req payload2 et hp
      rw [hpp] at this
      exact (Option.some.injEq _ _ ▸ this).symm
    have hfn2 : payload2.repoFullName = some full2 := by
      rw [hpeq]
      exact hfn
    have hdir2 : shortName full2 ∈ dirs := by
      rw [hsn]
      exact hdir
    have hclone : cloneEnsure dirs payload2 req.cloneOk =
        (.ok (repoPath (shortName full2), dirs), []) := by
      unfold cloneEnsure
      rw [hfn2]
      dsimp only
      rw [if_pos hdir2]
    have hrp : repoPath (shortName full2) = repoPath (shortName full1) := by
      rw [hsn]
    rw [github_webhook_trace, github_webhook_dirs]
    unfold github_webhook_try
    rw [hp]
    dsimp only
    rw [hclone]
    dsimp only
    by_cases h1 : et = "issues.labeled"
    · rw [if_pos h1]
      dsimp only
      have hsteps := labeled_trace_steps (repoPath (shortName full2)) payload2
        req.fetch env.claudeTimeoutEnv req.backend req.postOk
      refine ⟨?_, ?_, rfl⟩
      · intro u
        rw [List.nil_append]
        exact hsteps.1 u
      · intro cwd hc
        rw [List.nil_append] at hc
        rw [← hrp]
        exact hsteps.2 cwd hc
    · rw [if_neg h1]
      by_cases h2 : et = "issue_comment.created"
      · rw [if_pos h2]
        dsimp only
        have hsteps := comment_trace_steps (repoPath (shortName full2)) payload2
          req.fetch env.claudeTimeoutEnv req.backend req.postOk
        refine ⟨?_, ?_, rfl⟩
        · intro u
          rw [List.nil_append]
          exact hsteps.1 u
        · intro cwd hc
          rw [List.nil_append] at hc
          rw [← hrp]
          exact hsteps.2 cwd hc
      · rw [if_neg h2]
        exact ⟨by intro u; simp, by intro cwd hc; simp at hc, rfl⟩

end Main

namespace Main

/-! ## Witness instantiations of the universally quantified theorems -/

/-- C1 instantiated: the concrete labeled request posts a text that is
non-empty and signature-suffixed. -/
theorem c1_posted_reply_signed_witness :
    ("hello" ++ claude_reply_signature) ≠ "" ∧
    strEndsWith ("hello" ++ claude_reply_signature) claude_reply_signature = true :=
  c1_posted_reply_signed exHmac exEnv [] exReq
    ("hello" ++ claude_reply_signature) (by decide)

/-- The last comment of the concrete duplicate-guard scenario: it already ends
with the signature marker. -/
def c2Comment : CommentObj := { body := some ("thanks" ++ claude_reply_signature) }

/-- The fetched issue of the concrete duplicate-guard scenario. -/
def c2Info : IssueInfo := { title := some "t", comments := [c2Comment] }

/-- Payload of an `issue_comment`/`created` event on an issue carrying the
trigger label. -/
def c2Payload : Payload :=
  { action := some "created"
    labelName := none
    repoFullName := some "alice/tool"
    repoSshUrl := some "git@github.com:alice/tool.git"
    issueNumber := some 3
    issueLabelNames := [some "claude-discuss"] }

/-- A correctly signed comment-created request whose fetched issue already ends
with a signed reply. -/
def c2Req : RequestInput :=
  { headers := { xHubSignature256 := some "sha256=00ff", xGitHubEvent := some "issue_comment" }
    bodyBytes := [1, 2]
    payloadParse := some c2Payload
    cloneOk := true
    fetch := .ok c2Info
    backend := .success "hello"
    postOk := true }

/-- C2 instantiated at the concrete duplicate scenario. -/
theorem c2_duplicate_guard_witness :
    (github_webhook exHmac exEnv [] c2Req).resp = .ok "Claude reply already exists" ∧
    (github_webhook exHmac exEnv [] c2Req).resp.status = 200 ∧
    Step.analyze ∉ (github_webhook exHmac exEnv [] c2Req).trace ∧
    (∀ t, Step.publish t ∉ (github_webhook exHmac exEnv [] c2Req).trace) :=
  c2_duplicate_guard exHmac exEnv [] c2Req c2Payload
    (repoPath "tool") ["tool"] [Step.clone "git@github.com:alice/tool.git"]
    c2Info c2Comment (by decide) (by decide) (by decide) (by decide)
    (by decide) (by decide)

/-- The concrete labeled request with a backend timeout. -/
def c3Req : RequestInput := { exReq with backend := .timeoutExpired }

/-- C3 instantiated: the backend timeout still results in a published
fallback. -/
theorem c3_fallback_still_published_witness :
    ∃ fb, Step.publish fb ∈ (github_webhook exHmac exEnv [] c3Req).trace ∧
      fb = analyze_issue_with_claude exEnv.claudeTimeoutEnv c3Req.backend ∧
      (fb = fallback_api_error ∨ fb = fallback_timeout ∨ fb = fallback_unexpected) ∧
      strEndsWith fb claude_reply_signature = true :=
  c3_fallback_still_published exHmac exEnv [] c3Req
    (fun out h => nomatch h) (by decide)

/-- C6 amended, instantiated at the concrete `issues`/`opened` request. -/
theorem c6_unmatched_pair_ignored_witness :
    (∀ cwd, Step.fetch cwd ∉ (github_webhook exHmac exEnv [] c7Req).trace) ∧
    Step.dupCheck ∉ (github_webhook exHmac exEnv [] c7Req).trace ∧
    Step.analyze ∉ (github_webhook exHmac exEnv [] c7Req).trace ∧
    (∀ t, Step.publish t ∉ (github_webhook exHmac exEnv [] c7Req).trace) ∧
    (∀ rp dirs2 ctr, cloneEnsure [] c7Payload c7Req.cloneOk = (.ok (rp, dirs2), ctr) →
      (github_webhook exHmac exEnv [] c7Req).resp = .ok "Event ignored" ∧
      (github_webhook exHmac exEnv [] c7Req).resp.status = 200) ∧
    (∀ e ctr, cloneEnsure [] c7Payload c7Req.cloneOk = (.error e, ctr) →
      (github_webhook exHmac exEnv [] c7Req).resp = .serverError ∧
      (github_webhook exHmac exEnv [] c7Req).resp.status = 500) :=
  c6_unmatched_pair_ignored exHmac exEnv [] c7Req c7Payload "issues.opened"
    (by decide) (by decide) (by decide)

/-- C7 amended, instantiated: the ignored request's steps are ordered and its
clone ran. -/
theorem c7_step_order_witness :
    ((github_webhook exHmac exEnv [] c7Req).trace.map Step.kind).Sublist
      [StepKind.clone, StepKind.fetch, StepKind.dupCheck,
       StepKind.analyze, StepKind.publish] ∧
    Step.clone "git@github.com:alice/tool.git" ∈
      (github_webhook exHmac exEnv [] c7Req).trace :=
  ⟨(c7_step_order exHmac exEnv [] c7Req).1,
   (c7_step_order exHmac exEnv [] c7Req).2 c7Payload "issues.opened"
     "alice/tool" "git@github.com:alice/tool.git"
     (by decide) (by decide) (by decide) (by decide) (by decide)⟩

/-- Payload naming a different repository with the same short name as the
already cloned `alice/tool`. -/
def c10Payload : Payload :=
  { action := some "labeled"
    labelName := some "claude-discuss"
    repoFullName := some "bob/tool"
    repoSshUrl := some "git@github.com:bob/tool.git"
    issueNumber := some 3
    issueLabelNames := [] }

/-- A correctly signed labeled request for `bob/tool` while `alice/tool` is
already in the cache under the shared short name `tool`. -/
def c10Req : RequestInput :=
  { headers := { xHubSignature256 := some "sha256=00ff", xGitHubEvent := some "issues" }
    bodyBytes := [1, 2]
    payloadParse := some c10Payload
    cloneOk := true
    fetch := .ok { title := some "t", comments := [] }
    backend := .success "hello"
    postOk := true }

/-- C10 instantiated: the request for `bob/tool` performs no clone and its
fetch runs inside the `alice/tool` clone directory. -/
theorem c10_cache_keyed_by_short_name_witness :
    (∀ u, Step.clone u ∉ (github_webhook exHmac exEnv ["tool"] c10Req).trace) ∧
    (∀ cwd, Step.fetch cwd ∈ (github_webhook exHmac exEnv ["tool"] c10Req).trace →
      cwd = repoPath (shortName "alice/tool")) ∧
    (github_webhook exHmac exEnv ["tool"] c10Req).dirs = ["tool"] :=
  c10_cache_keyed_by_short_name exHmac exEnv ["tool"] c10Req c10Payload
    "alice/tool" "bob/tool" (by decide) (by decide) (by decide)
    (by decide) (by decide)

end Main
